import Mathlib

/-!
Verification of the tempoiq-python query builder and response classifier.

Shallow embedding of `src/tempoiq/protocol/query/builder.py` and of the
`Response` / `WriteResponse` classes (the latter are not under `src/`; they
are modelled from the spec, anchored by `src/tests/test_response.py`).

Python exceptions are modelled by an explicit `PyError` type; the builder's
in-place mutation is modelled by explicit state passing: every terminal call
returns the final builder state (reflecting mutations performed up to the
point where an exception, if any, was raised), the list of transport /
monitoring collaborator calls that were issued, the warnings emitted, and
the call's outcome.
-/

namespace TempoIQ

/-- Python runtime values that flow through the builder (timestamps, keys,
numbers, strings, booleans, and `None`).  `Value.none` is Python's `None`.
`Value.time` stands for a datetime object (always truthy in Python). -/
inductive Value where
  | none
  | int (n : Int)
  | str (s : String)
  | bool (b : Bool)
  | time (t : Nat)
  deriving DecidableEq, Repr

/-- Python truthiness (`if x:`): `None`, `0`, `""`, `False` are falsy;
datetime objects are always truthy. -/
def truthy : Value → Bool
  | Value.none => false
  | Value.int n => decide (n ≠ 0)
  | Value.str s => decide (s ≠ "")
  | Value.bool b => b
  | Value.time _ => true

/-- Python exception classes raised by the embedded code.  `valueError` is
the spec's ValidationError class, `typeError` its ArgumentTypeError class. -/
inductive PyError where
  | valueError (msg : String)
  | typeError (msg : String)
  | attributeError (msg : String)
  | indexError (msg : String)
  deriving DecidableEq, Repr

/-- Message constants of builder.py (lines 10-16). -/
def PIPEMSG : String := "Pipeline functions passed to monitor call currently have no effect"

def DEVICEMSG : String := "Pipeline functions passed to device reads have no effect"

def ROLLUPMSG : String := "Rollup, find, and multi-rollup must have a start and end passed to them"

def DELETEMSG : String := "Deleting data from sensors requires a start and end time"

def DELETEKEYMSG : String := "Deleting data from a sensor requires a selection specifying one device key and one sensor key only"

def DELETEDEVICEMSG : String := "Start and end are invalid arguments for deleting devices.  Are you sure you didn\x27t mean session.query(Sensor).delete() instead?"

def LATESTMSG : String := "The latest() method has been deprecated. Please use single(\"latest\") instead."

def MONITORKEYMSG : String := "monitoring rules may only be read out by one key at a time"

/-- Modelled from the spec: pipeline step variants of `functions.py` (not
under `src/`): "a tagged variant — Aggregation(function), Rollup(function,
period, start?), MultiRollup(functions, period, start?), Find(function,
period, start?), Interpolation(function, period, start?, end?),
ConvertTZ(timezone)".  Each step stores its positional arguments; the
trailing (`args[-1]`) argument of Rollup / MultiRollup / Find is `start`,
and the trailing two (`args[-2]`, `args[-1]`) of Interpolation are
`start`, `stop`. -/
inductive PipelineStep where
  | aggregation (function : String)
  | rollup (function period : String) (start : Value)
  | multiRollup (functions : List String) (period : String) (start : Value)
  | find (function period : String) (start : Value)
  | interpolation (function period : String) (start stop : Value)
  | convertTZ (tz : String)
  deriving DecidableEq, Repr

/-- Modelled from the spec: selection expression trees of `selection.py`
(not under `src/`): "a scalar selector (key = single value equality on some
selectable attribute), an AND-combination, an OR-combination, or a
dictionary-based compound selector".  AND/OR combinations subclass
`Compound` and expose a `selectors` list; a scalar selector exposes
`selection_type` and `value`. -/
inductive SelectionExpr where
  | scalar (selection_type attr : String) (value : Value)
  | andClause (selectors : List SelectionExpr)
  | orClause (selectors : List SelectionExpr)
  | dictSel (selection_type : String) (pairs : List (String × Value))

/-- `hasattr(x, "selectors")`: true exactly for the AND/OR combination
classes. -/
def hasSelectors : SelectionExpr → Bool
  | SelectionExpr.andClause _ => true
  | SelectionExpr.orClause _ => true
  | _ => false

/-- The `selectors` attribute of a combination node (meaningful only when
`hasSelectors` holds). -/
def getSelectors : SelectionExpr → List SelectionExpr
  | SelectionExpr.andClause ss => ss
  | SelectionExpr.orClause ss => ss
  | _ => []

/-- The `.value` attribute: present on scalar selectors, an AttributeError
on every other expression shape. -/
def getValue : SelectionExpr → Except PyError Value
  | SelectionExpr.scalar _ _ v => Except.ok v
  | _ => Except.error (PyError.attributeError "value")

/-- `issubclass(x.__class__, (Compound, DictSelectable))`: true for AND/OR
combinations and dictionary selectors, false for scalar selectors. -/
def isCompoundOrDict : SelectionExpr → Bool
  | SelectionExpr.scalar _ _ _ => false
  | _ => true

/-- Modelled from the spec: a `Selection` (`selection.py`, not under
`src/`) holds a selection expression tree, `None` when empty (a fresh
`Selection()` has `selection = None`). -/
structure Selection where
  selection : Option SelectionExpr

/-- The builder's `self.selection` dictionary with its three fixed
category buckets. -/
structure SelectionMap where
  devices : Selection
  sensors : Selection
  rules : Selection

/-- The arguments dictionary of an `APIOperation`, one shape per
terminal operation (cf. builder.py lines 114, 122-124, 203, 206, 213-214,
231-234).  For `single`, the `timestamp` key is present only when a
non-`None` timestamp was supplied. -/
inductive OpArgs where
  | readArgs (start stop : Value)
  | findArgs (quantifier : String)
  | singleArgs (function : String) (timestamp : Option Value) (include_selection : Bool)
  | deleteArgs (start stop device_key sensor_key : Value)

/-- `APIOperation(name, args)` as recorded in `self.operation`. -/
structure APIOperation where
  name : String
  args : OpArgs

/-- The mutable state of a `QueryBuilder` instance (builder.py lines
34-43): the object type tag (a lowercased, pluralised class-name string),
the selection buckets, the pipeline list, and the operation (None until a
terminal call sets it). -/
structure QueryBuilder where
  object_type : String
  selection : SelectionMap
  pipeline : List PipelineStep
  operation : Option APIOperation

/-- Python's `str.lower()`, character by character. -/
def pyLower (s : String) : String := String.mk (s.data.map Char.toLower)

/-- `QueryBuilder.__init__`: `self.object_type = object_type.__name__.lower() + 's'`,
fresh empty selections, empty pipeline, no operation. -/
def QueryBuilder.init (class_name : String) : QueryBuilder :=
  { object_type := pyLower class_name ++ "s"
    selection := ⟨⟨Option.none⟩, ⟨Option.none⟩, ⟨Option.none⟩⟩
    pipeline := []
    operation := Option.none }

/-- Modelled from the spec: a monitoring `Rule` object (tempoiq.protocol,
not under `src/`) is an opaque handle to which `monitor` attaches the
current selection. -/
structure Rule where
  key : Value
  attached : Option SelectionMap

/-- One delegated call to the transport client or the monitoring
collaborator, recording the arguments the Python code passes (`self` is
recorded as the builder state at the moment of the call). -/
inductive TransportCall where
  | read (q : QueryBuilder)
  | search_devices (q : QueryBuilder)
  | single (q : QueryBuilder)
  | delete_from_sensors (device_key sensor_key start stop : Value)
  | delete_device (q : QueryBuilder)
  | get_rule (key : Value)
  | get_annotations (key : Value)
  | get_changelog (key : Value)
  | get_logs (key : Value)
  | get_usage (key : Value)
  | delete_rule (key : Value)
  | monitor (rule : Rule)

/-- The value a terminal call returns to the caller: either the opaque
result of the delegated collaborator call, or Python `None` (a method that
falls off its end without `return`). -/
inductive TerminalResult where
  | clientResult (call : TransportCall)
  | pyNone

/-- Result of running one terminal call: the builder state afterwards
(mutations up to a raise included), the collaborator calls issued, the
warnings emitted, and the returned value or raised exception. -/
structure CallResult where
  state : QueryBuilder
  calls : List TransportCall
  warns : List String
  result : Except PyError TerminalResult

/-- `extract_key_for_monitoring` (builder.py lines 19-26): if the root
expression has a `selectors` attribute, fail when it holds more than one
selector, else return the first selector's `.value`; otherwise return the
root's `.value` directly.  A `None` root has neither attribute. -/
def extract_key_for_monitoring (sel : Selection) : Except PyError Value :=
  match sel.selection with
  | Option.none => Except.error (PyError.attributeError "value")
  | Option.some e =>
    if hasSelectors e then
      if (getSelectors e).length > 1 then
        Except.error (PyError.valueError MONITORKEYMSG)
      else
        match (getSelectors e).head? with
        | Option.some s => getValue s
        | Option.none => Except.error (PyError.indexError "list index out of range")
    else
      getValue e

/-- One iteration of the `_normalize_pipeline_functions` loop (builder.py
lines 52-62): Rollup / MultiRollup / Find steps require non-`None` start
and end and have a `None` trailing start back-filled with `start`;
Interpolation steps have `None` trailing start / stop back-filled with
`start` / `stop` unconditionally; other steps pass through. -/
def normalizeStep (start stop : Value) : PipelineStep → Except PyError PipelineStep
  | PipelineStep.rollup f p s =>
    if start = Value.none ∨ stop = Value.none then
      Except.error (PyError.valueError ROLLUPMSG)
    else
      Except.ok (PipelineStep.rollup f p (if s = Value.none then start else s))
  | PipelineStep.multiRollup fs p s =>
    if start = Value.none ∨ stop = Value.none then
      Except.error (PyError.valueError ROLLUPMSG)
    else
      Except.ok (PipelineStep.multiRollup fs p (if s = Value.none then start else s))
  | PipelineStep.find f p s =>
    if start = Value.none ∨ stop = Value.none then
      Except.error (PyError.valueError ROLLUPMSG)
    else
      Except.ok (PipelineStep.find f p (if s = Value.none then start else s))
  | PipelineStep.interpolation f p s e =>
    Except.ok (PipelineStep.interpolation f p
      (if s = Value.none then start else s) (if e = Value.none then stop else e))
  | step => Except.ok step

/-- The `_normalize_pipeline_functions` loop over the pipeline list.  The
loop mutates steps in place and may raise part-way: the returned list is
the pipeline as left behind (steps before the raise updated, the raising
step and the rest untouched), paired with the raised error, if any. -/
def normalizeSteps (start stop : Value) : List PipelineStep → List PipelineStep × Option PyError
  | [] => ([], Option.none)
  | f :: rest =>
    match normalizeStep start stop f with
    | Except.error e => (f :: rest, Option.some e)
    | Except.ok f2 =>
      let r := normalizeSteps start stop rest
      (f2 :: r.1, r.2)

/-- `QueryBuilder._normalize_pipeline_functions` (builder.py lines 51-62):
updates `self.pipeline` in place, possibly raising. -/
def QueryBuilder.normalize_pipeline_functions (qb : QueryBuilder) (start stop : Value) :
    QueryBuilder × Option PyError :=
  let r := normalizeSteps start stop qb.pipeline
  ({ qb with pipeline := r.1 }, r.2)

/-- `QueryBuilder._validate_datapoint_delete` (builder.py lines 64-76):
rejects compound / dict device or sensor selections, then absent ones,
then returns the two scalar selectors' values. -/
def QueryBuilder.validate_datapoint_delete (qb : QueryBuilder) :
    Except PyError (Value × Value) :=
  if (qb.selection.devices.selection.map isCompoundOrDict).getD false then
    Except.error (PyError.valueError DELETEKEYMSG)
  else if (qb.selection.sensors.selection.map isCompoundOrDict).getD false then
    Except.error (PyError.valueError DELETEKEYMSG)
  else
    match qb.selection.devices.selection, qb.selection.sensors.selection with
    | Option.none, _ => Except.error (PyError.valueError DELETEKEYMSG)
    | Option.some _, Option.none => Except.error (PyError.valueError DELETEKEYMSG)
    | Option.some d, Option.some s => do
      let dv ← getValue d
      let sv ← getValue s
      Except.ok (dv, sv)

/-- `QueryBuilder._handle_monitor_read` (builder.py lines 45-49): extracts
the rule key and calls the named monitoring-client method with it.  The
method name is threaded through the synthetic kwargs key; the only caller
passes `get_rule`. -/
def QueryBuilder.handle_monitor_read (qb : QueryBuilder) : CallResult :=
  match extract_key_for_monitoring qb.selection.rules with
  | Except.error e => ⟨qb, [], [], Except.error e⟩
  | Except.ok key =>
    ⟨qb, [TransportCall.get_rule key], [],
      Except.ok (TerminalResult.clientResult (TransportCall.get_rule key))⟩

/-- Pipeline-appending methods (builder.py lines 78-82, 96-101, 146-188).
Each appends one step and returns `self`.  Note `interpolate` (lines
150-156) accepts `start` and `end` parameters but builds
`Interpolation(function, period)` without them, so the appended step's
start / stop fields are the constructor defaults (`None`). -/
def QueryBuilder.aggregate (qb : QueryBuilder) (function : String) : QueryBuilder :=
  { qb with pipeline := qb.pipeline ++ [PipelineStep.aggregation function] }

def QueryBuilder.convert_timezone (qb : QueryBuilder) (tz : String) : QueryBuilder :=
  { qb with pipeline := qb.pipeline ++ [PipelineStep.convertTZ tz] }

def QueryBuilder.rollup (qb : QueryBuilder) (function period : String) (start : Value) :
    QueryBuilder :=
  { qb with pipeline := qb.pipeline ++ [PipelineStep.rollup function period start] }

def QueryBuilder.multi_rollup (qb : QueryBuilder) (functions : List String) (period : String)
    (start : Value) : QueryBuilder :=
  { qb with pipeline := qb.pipeline ++ [PipelineStep.multiRollup functions period start] }

def QueryBuilder.find (qb : QueryBuilder) (function period : String) (start : Value) :
    QueryBuilder :=
  { qb with pipeline := qb.pipeline ++ [PipelineStep.find function period start] }

def QueryBuilder.interpolate (qb : QueryBuilder) (function period : String)
    (_start _stop : Value) : QueryBuilder :=
  { qb with pipeline :=
      qb.pipeline ++ [PipelineStep.interpolation function period Value.none Value.none] }

/-- `QueryBuilder.read` (builder.py lines 190-221).  `start` / `stop` are
the values of the `start` / `end` kwargs (both keys passed, possibly
`None`).  For sensors: the operation is recorded first, then the pipeline
is normalized (which may raise), then the client is called with `self`.
For devices: a non-empty pipeline is cleared with a warning, then
operation `find(all)` is recorded and `search_devices` called.  For rules:
delegates to the monitor-read handler.  Anything else is a TypeError. -/
def QueryBuilder.read (qb : QueryBuilder) (start stop : Value) : CallResult :=
  if qb.object_type = "sensors" then
    let op : APIOperation := ⟨"read", OpArgs.readArgs start stop⟩
    let qb1 := { qb with operation := Option.some op }
    let n := qb1.normalize_pipeline_functions start stop
    match n.2 with
    | Option.some e => ⟨n.1, [], [], Except.error e⟩
    | Option.none =>
      ⟨n.1, [TransportCall.read n.1], [],
        Except.ok (TerminalResult.clientResult (TransportCall.read n.1))⟩
  else if qb.object_type = "devices" then
    let cleared := qb.pipeline ≠ []
    let qb1 := { qb with pipeline := [] }
    let op : APIOperation := ⟨"find", OpArgs.findArgs "all"⟩
    let qb2 := { qb1 with operation := Option.some op }
    ⟨qb2, [TransportCall.search_devices qb2], if cleared then [DEVICEMSG] else [],
      Except.ok (TerminalResult.clientResult (TransportCall.search_devices qb2))⟩
  else if qb.object_type = "rules" then
    qb.handle_monitor_read
  else
    ⟨qb, [], [], Except.error
      (PyError.typeError "Only sensors, devices, and rules can be selected")⟩

/-- `QueryBuilder.single` (builder.py lines 223-240): sensors only; records
operation `single` (with the timestamp key only when a non-`None`
timestamp was given) and delegates to the client's single-point call. -/
def QueryBuilder.single (qb : QueryBuilder) (function : String) (timestamp : Value)
    (include_selection : Bool) : CallResult :=
  if qb.object_type = "sensors" then
    let ts := if timestamp = Value.none then Option.none else Option.some timestamp
    let op : APIOperation := ⟨"single", OpArgs.singleArgs function ts include_selection⟩
    let qb1 := { qb with operation := Option.some op }
    ⟨qb1, [TransportCall.single qb1], [],
      Except.ok (TerminalResult.clientResult (TransportCall.single qb1))⟩
  else
    ⟨qb, [], [], Except.error (PyError.typeError "Single value only applies to sensors")⟩

/-- `QueryBuilder.latest` (builder.py lines 242-247): warns, then calls
`self.single('latest', include_selection=include_selection)` with no
`return` statement, so the method itself returns `None` when `single`
succeeds (and propagates the exception when it raises). -/
def QueryBuilder.latest (qb : QueryBuilder) (include_selection : Bool) : CallResult :=
  let r := qb.single "latest" Value.none include_selection
  { r with warns := LATESTMSG :: r.warns,
           result := r.result.map (fun _ => TerminalResult.pyNone) }

/-- `QueryBuilder.delete` (builder.py lines 103-130).  `start` / `stop`
model `kwargs.get('start')` / `kwargs.get('end')` (`Value.none` when
absent).  Devices: rejects truthy start or end (`if start or end:`), else
records `find(all)` and calls `delete_device`.  Sensors: rejects a `None`
start or end, validates the two scalar keys, records the delete operation
and calls `delete_from_sensors`.  Rules: extracts the key and calls
`delete_rule`.  Any other object type falls off the end, returning
`None`. -/
def QueryBuilder.delete (qb : QueryBuilder) (start stop : Value) : CallResult :=
  if qb.object_type = "devices" then
    if truthy start || truthy stop then
      ⟨qb, [], [], Except.error (PyError.valueError DELETEDEVICEMSG)⟩
    else
      let op : APIOperation := ⟨"find", OpArgs.findArgs "all"⟩
      let qb1 := { qb with operation := Option.some op }
      ⟨qb1, [TransportCall.delete_device qb1], [],
        Except.ok (TerminalResult.clientResult (TransportCall.delete_device qb1))⟩
  else if qb.object_type = "sensors" then
    if start = Value.none ∨ stop = Value.none then
      ⟨qb, [], [], Except.error (PyError.valueError DELETEMSG)⟩
    else
      match qb.validate_datapoint_delete with
      | Except.error e => ⟨qb, [], [], Except.error e⟩
      | Except.ok (device_key, sensor_key) =>
        let op : APIOperation := ⟨"delete", OpArgs.deleteArgs start stop device_key sensor_key⟩
        let qb1 := { qb with operation := Option.some op }
        ⟨qb1, [TransportCall.delete_from_sensors device_key sensor_key start stop], [],
          Except.ok (TerminalResult.clientResult
            (TransportCall.delete_from_sensors device_key sensor_key start stop))⟩
  else if qb.object_type = "rules" then
    match extract_key_for_monitoring qb.selection.rules with
    | Except.error e => ⟨qb, [], [], Except.error e⟩
    | Except.ok key =>
      ⟨qb, [TransportCall.delete_rule key], [],
        Except.ok (TerminalResult.clientResult (TransportCall.delete_rule key))⟩
  else
    ⟨qb, [], [], Except.ok TerminalResult.pyNone⟩

/-- `QueryBuilder.monitor` (builder.py lines 164-168): warns when a
pipeline was accumulated (without clearing it), attaches the selection to
the rule, and delegates to the client. -/
def QueryBuilder.monitor (qb : QueryBuilder) (rule : Rule) : CallResult :=
  let rule1 := { rule with attached := Option.some qb.selection }
  ⟨qb, [TransportCall.monitor rule1], if qb.pipeline ≠ [] then [PIPEMSG] else [],
    Except.ok (TerminalResult.clientResult (TransportCall.monitor rule1))⟩

/-- `isinstance(self.object_type, Rule)` as written in builder.py lines
85, 91, 159, 250: `self.object_type` is the string built in `__init__`
(line 36), and a `str` is never an instance of the `Rule` domain class,
so the check is false for every builder. -/
def isinstance_of_Rule (_object_type : String) : Bool := false

/-- `QueryBuilder.annotations` (builder.py lines 84-88). -/
def QueryBuilder.annotations (qb : QueryBuilder) : CallResult :=
  if ¬ isinstance_of_Rule qb.object_type then
    ⟨qb, [], [], Except.error (PyError.typeError "Annotations only applies to monitoring rules")⟩
  else
    match extract_key_for_monitoring qb.selection.rules with
    | Except.error e => ⟨qb, [], [], Except.error e⟩
    | Except.ok key =>
      ⟨qb, [TransportCall.get_annotations key], [],
        Except.ok (TerminalResult.clientResult (TransportCall.get_annotations key))⟩

/-- `QueryBuilder.changes` (builder.py lines 90-94). -/
def QueryBuilder.changes (qb : QueryBuilder) : CallResult :=
  if ¬ isinstance_of_Rule qb.object_type then
    ⟨qb, [], [], Except.error (PyError.typeError "Changes only applies to monitoring rules")⟩
  else
    match extract_key_for_monitoring qb.selection.rules with
    | Except.error e => ⟨qb, [], [], Except.error e⟩
    | Except.ok key =>
      ⟨qb, [TransportCall.get_changelog key], [],
        Except.ok (TerminalResult.clientResult (TransportCall.get_changelog key))⟩

/-- `QueryBuilder.logs` (builder.py lines 158-162). -/
def QueryBuilder.logs (qb : QueryBuilder) : CallResult :=
  if ¬ isinstance_of_Rule qb.object_type then
    ⟨qb, [], [], Except.error (PyError.typeError "Logs only applies to monitoring rules")⟩
  else
    match extract_key_for_monitoring qb.selection.rules with
    | Except.error e => ⟨qb, [], [], Except.error e⟩
    | Except.ok key =>
      ⟨qb, [TransportCall.get_logs key], [],
        Except.ok (TerminalResult.clientResult (TransportCall.get_logs key))⟩

/-- `QueryBuilder.usage` (builder.py lines 249-253). -/
def QueryBuilder.usage (qb : QueryBuilder) : CallResult :=
  if ¬ isinstance_of_Rule qb.object_type then
    ⟨qb, [], [], Except.error (PyError.typeError "Usage only applies to monitoring rules")⟩
  else
    match extract_key_for_monitoring qb.selection.rules with
    | Except.error e => ⟨qb, [], [], Except.error e⟩
    | Except.ok key =>
      ⟨qb, [TransportCall.get_usage key], [],
        Except.ok (TerminalResult.clientResult (TransportCall.get_usage key))⟩

/-- Modelled from the spec: a raw transport result as consumed by the
response classifier (`tempoiq/response.py` is not under `src/`; only its
tests are): "a raw result object exposing {status_code: int, reason:
string, text: string}". -/
structure RawResult where
  status_code : Int
  reason : String
  text : String
  deriving DecidableEq, Repr

/-- Modelled from the spec: the `Response` wrapper (`tempoiq/response.py`,
not under `src/`): numeric status code and reason phrase stored verbatim,
a tri-state outcome (0 = success, 1 = failure, 2 = the partially
successful state), and an error message present only for the non-success
outcomes. -/
structure Response where
  status : Int
  reason : String
  successful : Nat
  error : Option String
  deriving DecidableEq, Repr

/-- Modelled from the spec: `Response.__init__` classification ("codes in
[200,300) → success (code 0 internally); codes ≥ 300 other than the
partial code → failure (code 1), capturing body text as the error
message; the specific partial-multi-status code (207) → partial (code 2),
capturing body text as the error message"), anchored by
`src/tests/test_response.py` lines 8-44, which pin 200 ↦ 0, 403 ↦ 1 with
error "foo", and 207 ↦ 2 with error "foo" — so 207 is classified before
the [200,300) success range. -/
def Response.ofRaw (resp : RawResult) : Response :=
  if resp.status_code = 207 then
    ⟨resp.status_code, resp.reason, 2, Option.some resp.text⟩
  else if 200 ≤ resp.status_code ∧ resp.status_code < 300 then
    ⟨resp.status_code, resp.reason, 0, Option.none⟩
  else
    ⟨resp.status_code, resp.reason, 1, Option.some resp.text⟩

/-- The `status_code` property alias: "expose a status-code alias
identical to the primary status accessor". -/
def Response.status_code (r : Response) : Int := r.status

/-- Modelled from the spec: one entry of a decoded write-response body —
"a record {device_state ∈ {existing, created, modified}, message:
string|null, success: bool}". -/
structure WriteEntry where
  device_state : String
  message : Option String
  success : Bool
  deriving DecidableEq, Repr

/-- Modelled from the spec: the `WriteResponse` specialization
(`tempoiq/response.py`, not under `src/`): it decodes the body as a
mapping key → entry (taken here already decoded, in body order) and
overrides the tri-state outcome from the body alone: all entries
successful → 0, none successful → 1, otherwise 2.  Status code and reason
are kept verbatim and play no part in the outcome. -/
structure WriteResponse where
  status : Int
  reason : String
  successful : Nat
  body : List (String × WriteEntry)

def WriteResponse.ofRaw (resp : RawResult) (body : List (String × WriteEntry)) :
    WriteResponse :=
  { status := resp.status_code
    reason := resp.reason
    successful :=
      if body.all (fun e => e.2.success) then 0
      else if body.all (fun e => ! e.2.success) then 1
      else 2
    body := body }

/-- The `failures` view: "(key, message) pairs where success is false",
streamed from the decoded mapping. -/
def WriteResponse.failures (w : WriteResponse) : List (String × Option String) :=
  (w.body.filter (fun e => ! e.2.success)).map (fun e => (e.1, e.2.message))

/-- The `created` view: keys where success is true and device_state is
"created". -/
def WriteResponse.created (w : WriteResponse) : List String :=
  ((w.body.filter (fun e => e.2.success)).filter
    (fun e => e.2.device_state == "created")).map (fun e => e.1)

/-- The `existing` view: keys where success is true and device_state is
"existing". -/
def WriteResponse.existing (w : WriteResponse) : List String :=
  ((w.body.filter (fun e => e.2.success)).filter
    (fun e => e.2.device_state == "existing")).map (fun e => e.1)

/-- The `modified` view: keys where success is true and device_state is
"modified". -/
def WriteResponse.modified (w : WriteResponse) : List String :=
  ((w.body.filter (fun e => e.2.success)).filter
    (fun e => e.2.device_state == "modified")).map (fun e => e.1)

/-! ### Helper predicates and concrete instances used in the statements -/

/-- The pipeline steps that `_normalize_pipeline_functions` requires
bounds for: Rollup, MultiRollup, Find. -/
def isRollupMultiFind : PipelineStep → Bool
  | PipelineStep.rollup _ _ _ => true
  | PipelineStep.multiRollup _ _ _ => true
  | PipelineStep.find _ _ _ => true
  | _ => false

/-- The trailing start argument (`args[-1]`) of a Rollup / MultiRollup /
Find step; `none` for the other step shapes. -/
def trailingStart : PipelineStep → Option Value
  | PipelineStep.rollup _ _ s => Option.some s
  | PipelineStep.multiRollup _ _ s => Option.some s
  | PipelineStep.find _ _ s => Option.some s
  | _ => Option.none

/-- What one normalization iteration does to a step when both bounds are
present (the non-raising branch of each case of the loop body). -/
def fillStep (start stop : Value) : PipelineStep → PipelineStep
  | PipelineStep.rollup f p s =>
    PipelineStep.rollup f p (if s = Value.none then start else s)
  | PipelineStep.multiRollup fs p s =>
    PipelineStep.multiRollup fs p (if s = Value.none then start else s)
  | PipelineStep.find f p s =>
    PipelineStep.find f p (if s = Value.none then start else s)
  | PipelineStep.interpolation f p s e =>
    PipelineStep.interpolation f p
      (if s = Value.none then start else s) (if e = Value.none then stop else e)
  | step => step

/-- A devices / sensors selection bucket that `_validate_datapoint_delete`
rejects: absent, or a compound / dict expression. -/
def badDeleteSelection (s : Selection) : Bool :=
  match s.selection with
  | Option.none => true
  | Option.some e => isCompoundOrDict e

/-- The fail-fast property a terminal call result may satisfy with respect
to its initial state: if the call raised a ValidationError-class error,
then no collaborator call was issued and the selection buckets are
untouched. -/
def failsFastFrom (qb : QueryBuilder) (r : CallResult) : Prop :=
  ∀ m, r.result = Except.error (PyError.valueError m) →
    r.calls = [] ∧ r.state.selection = qb.selection

/-- A fresh sensors builder (`QueryBuilder(client, Sensor)`). -/
def sensorsBuilder : QueryBuilder := QueryBuilder.init "Sensor"

/-- A fresh devices builder (`QueryBuilder(client, Device)`). -/
def devicesBuilder : QueryBuilder := QueryBuilder.init "Device"

/-- A rules builder (`QueryBuilder(client, Rule)`) whose rules bucket
selects the single key "rule1". -/
def rulesBuilder : QueryBuilder :=
  { QueryBuilder.init "Rule" with
    selection := ⟨⟨Option.none⟩, ⟨Option.none⟩,
      ⟨Option.some (SelectionExpr.scalar "rules" "key" (Value.str "rule1"))⟩⟩ }

/-- A sensors builder with one rollup lacking its own start (used by the
normalization claims). -/
def rollupBuilder : QueryBuilder :=
  { sensorsBuilder with pipeline := [PipelineStep.rollup "max" "1hour" Value.none] }

/-- A sensors builder whose device and sensor buckets each hold a single
scalar key (used by the datapoint-delete claims). -/
def deleteBuilder : QueryBuilder :=
  { sensorsBuilder with
    selection := ⟨⟨Option.some (SelectionExpr.scalar "devices" "key" (Value.str "d1"))⟩,
      ⟨Option.some (SelectionExpr.scalar "sensors" "key" (Value.str "s1"))⟩,
      ⟨Option.none⟩⟩ }

/-! ### Lemmas about pipeline normalization -/

theorem normalizeStep_ok (start stop : Value) (hS : start ≠ Value.none)
    (hE : stop ≠ Value.none) (f : PipelineStep) :
    normalizeStep start stop f = Except.ok (fillStep start stop f) := by
  cases f <;> simp [normalizeStep, fillStep, hS, hE]

theorem normalizeSteps_ok (start stop : Value) (hS : start ≠ Value.none)
    (hE : stop ≠ Value.none) :
    ∀ l : List PipelineStep,
      normalizeSteps start stop l = (l.map (fillStep start stop), Option.none)
  | [] => rfl
  | f :: rest => by
    simp [normalizeSteps, normalizeStep_ok start stop hS hE f,
      normalizeSteps_ok start stop hS hE rest]

theorem normalizeStep_nonRMF_ok (start stop : Value) (f : PipelineStep)
    (h : isRollupMultiFind f = false) :
    ∃ f2, normalizeStep start stop f = Except.ok f2 := by
  cases f <;> first
    | exact ⟨_, rfl⟩
    | simp [isRollupMultiFind] at h

theorem normalizeStep_RMF_err (start stop : Value)
    (hb : start = Value.none ∨ stop = Value.none) (f : PipelineStep)
    (hf : isRollupMultiFind f = true) :
    normalizeStep start stop f = Except.error (PyError.valueError ROLLUPMSG) := by
  cases f <;> simp [isRollupMultiFind] at hf <;> simp [normalizeStep, hb]

theorem normalizeSteps_err (start stop : Value)
    (hb : start = Value.none ∨ stop = Value.none) :
    ∀ l : List PipelineStep, (∃ f ∈ l, isRollupMultiFind f = true) →
      (normalizeSteps start stop l).2 = Option.some (PyError.valueError ROLLUPMSG)
  | [], h => by simp at h
  | f :: rest, h => by
    by_cases hf : isRollupMultiFind f = true
    · simp [normalizeSteps, normalizeStep_RMF_err start stop hb f hf]
    · have hf2 : isRollupMultiFind f = false := by simpa using hf
      obtain ⟨f2, hok⟩ := normalizeStep_nonRMF_ok start stop f hf2
      have hrest : ∃ g ∈ rest, isRollupMultiFind g = true := by
        rcases h with ⟨g, hg, hgt⟩
        rcases List.mem_cons.mp hg with rfl | hmem
        · exact absurd hgt hf
        · exact ⟨g, hmem, hgt⟩
      simp [normalizeSteps, hok, normalizeSteps_err start stop hb rest hrest]

theorem normalizeSteps_noRMF (start stop : Value) :
    ∀ l : List PipelineStep, (∀ f ∈ l, isRollupMultiFind f = false) →
      (normalizeSteps start stop l).2 = Option.none
  | [], _ => rfl
  | f :: rest, h => by
    obtain ⟨f2, hok⟩ := normalizeStep_nonRMF_ok start stop f (h f (List.mem_cons_self f rest))
    simp [normalizeSteps, hok, normalizeSteps_noRMF start stop rest
      (fun g hg => h g (List.mem_cons.mpr (Or.inr hg)))]

theorem fillStep_trailing (start stop : Value) (s : PipelineStep)
    (h : isRollupMultiFind s = true) :
    (trailingStart s = Option.some Value.none →
      trailingStart (fillStep start stop s) = Option.some start) ∧
    (trailingStart s ≠ Option.some Value.none → fillStep start stop s = s) := by
  cases s <;> simp [isRollupMultiFind] at h <;>
    constructor <;> intro h1 <;> simp [trailingStart, fillStep] at h1 ⊢ <;>
    simp [h1]

/-- C1: on a sensors builder, `read(start=S, end=E)` fails with a
ValidationError-class error (a `ValueError` carrying ROLLUPMSG) whenever
the pipeline contains a Rollup / MultiRollup / Find step and S or E is
`None`; otherwise normalization maps `fillStep` over the pipeline, so that
every such step whose own trailing start was `None` ends up with trailing
start S, and every such step whose start was already set is unchanged;
when no such step is present the read never fails, whatever the bounds. -/
theorem read_sensors_normalization (qb : QueryBuilder) (S E : Value)
    (hot : qb.object_type = "sensors") :
    ((S = Value.none ∨ E = Value.none) →
      (∃ f ∈ qb.pipeline, isRollupMultiFind f = true) →
      (qb.read S E).result = Except.error (PyError.valueError ROLLUPMSG)) ∧
    (S ≠ Value.none → E ≠ Value.none →
      (qb.read S E).result =
        Except.ok (TerminalResult.clientResult (TransportCall.read (qb.read S E).state)) ∧
      (qb.read S E).state.pipeline = qb.pipeline.map (fillStep S E) ∧
      (∀ (i : Nat) (s : PipelineStep),
        qb.pipeline[i]? = Option.some s → isRollupMultiFind s = true →
        (trailingStart s = Option.some Value.none →
          ∃ s2, ((qb.read S E).state.pipeline)[i]? = Option.some s2 ∧
            trailingStart s2 = Option.some S) ∧
        (trailingStart s ≠ Option.some Value.none →
          ((qb.read S E).state.pipeline)[i]? = Option.some s))) ∧
    ((∀ f ∈ qb.pipeline, isRollupMultiFind f = false) →
      (qb.read S E).result = Except.ok (TerminalResult.clientResult
        (TransportCall.read (qb.read S E).state))) := by
  refine ⟨?_, ?_, ?_⟩
  · intro hb hex
    have herr := normalizeSteps_err S E hb qb.pipeline hex
    simp [QueryBuilder.read, hot, QueryBuilder.normalize_pipeline_functions, herr]
  · intro hS hE
    have hok := normalizeSteps_ok S E hS hE qb.pipeline
    have hpipe : (qb.read S E).state.pipeline = qb.pipeline.map (fillStep S E) := by
      simp [QueryBuilder.read, hot, QueryBuilder.normalize_pipeline_functions, hok]
    refine ⟨?_, hpipe, ?_⟩
    · simp [QueryBuilder.read, hot, QueryBuilder.normalize_pipeline_functions, hok]
    · intro i s hi hrmf
      have hmap : ((qb.read S E).state.pipeline)[i]? = Option.some (fillStep S E s) := by
        rw [hpipe, List.getElem?_map, hi]
        rfl
      constructor
      · intro hnone
        exact ⟨fillStep S E s, hmap, (fillStep_trailing S E s hrmf).1 hnone⟩
      · intro hset
        rw [hmap, (fillStep_trailing S E s hrmf).2 hset]
  · intro hno
    rcases hn : normalizeSteps S E qb.pipeline with ⟨p2, err⟩
    have herr : err = Option.none := by
      have := normalizeSteps_noRMF S E qb.pipeline hno
      rwa [hn] at this
    subst herr
    simp [QueryBuilder.read, hot, QueryBuilder.normalize_pipeline_functions, hn]

/-- Witness for C1, at a sensors builder holding one rollup without its
own start, read with bounds S = time 5, E = time 7: the step's trailing
start becomes S. -/
theorem read_sensors_normalization_witness :
    rollupBuilder.object_type = "sensors" ∧
    ∃ s2, ((rollupBuilder.read (Value.time 5) (Value.time 7)).state.pipeline)[0]? =
        Option.some s2 ∧ trailingStart s2 = Option.some (Value.time 5) := by
  have h := (read_sensors_normalization rollupBuilder (Value.time 5) (Value.time 7)
    rfl).2.1 (by decide) (by decide)
  exact ⟨rfl, (h.2.2 0 (PipelineStep.rollup "max" "1hour" Value.none) rfl rfl).1 rfl⟩

/-! ### Fail-fast lemmas for the terminal calls (claim C2) -/

theorem read_failsFast (qb : QueryBuilder) (S E : Value) :
    failsFastFrom qb (qb.read S E) := by
  intro m hm
  by_cases h1 : qb.object_type = "sensors"
  · rcases hn : normalizeSteps S E qb.pipeline with ⟨p2, err⟩
    cases err with
    | none =>
      simp [QueryBuilder.read, h1, QueryBuilder.normalize_pipeline_functions, hn] at hm
    | some e =>
      simp [QueryBuilder.read, h1, QueryBuilder.normalize_pipeline_functions, hn] at hm ⊢
  · by_cases h2 : qb.object_type = "devices"
    · simp [QueryBuilder.read, h1, h2] at hm
    · by_cases h3 : qb.object_type = "rules"
      · rcases hx : extract_key_for_monitoring qb.selection.rules with e | key <;>
          simp [QueryBuilder.read, QueryBuilder.handle_monitor_read, h1, h2, h3, hx] at hm ⊢
      · simp [QueryBuilder.read, h1, h2, h3] at hm

theorem delete_failsFast (qb : QueryBuilder) (S E : Value) :
    failsFastFrom qb (qb.delete S E) := by
  intro m hm
  by_cases h1 : qb.object_type = "devices"
  · by_cases ht : truthy S || truthy E
    · simp [QueryBuilder.delete, h1, ht] at hm ⊢
    · simp [QueryBuilder.delete, h1, ht] at hm
  · by_cases h2 : qb.object_type = "sensors"
    · by_cases hb : S = Value.none ∨ E = Value.none
      · simp [QueryBuilder.delete, h1, h2, hb] at hm ⊢
      · rcases hv : qb.validate_datapoint_delete with e | ⟨dk, sk⟩ <;>
          simp [QueryBuilder.delete, h1, h2, hb, hv] at hm ⊢
    · by_cases h3 : qb.object_type = "rules"
      · rcases hx : extract_key_for_monitoring qb.selection.rules with e | key <;>
          simp [QueryBuilder.delete, h1, h2, h3, hx] at hm ⊢
      · simp [QueryBuilder.delete, h1, h2, h3] at hm

theorem single_failsFast (qb : QueryBuilder) (f : String) (ts : Value) (inc : Bool) :
    failsFastFrom qb (qb.single f ts inc) := by
  intro m hm
  by_cases h1 : qb.object_type = "sensors" <;> simp [QueryBuilder.single, h1] at hm

theorem latest_failsFast (qb : QueryBuilder) (inc : Bool) :
    failsFastFrom qb (qb.latest inc) := by
  intro m hm
  by_cases h1 : qb.object_type = "sensors" <;>
    simp [QueryBuilder.latest, QueryBuilder.single, Except.map, h1] at hm

theorem annotations_failsFast (qb : QueryBuilder) : failsFastFrom qb qb.annotations := by
  intro m hm
  simp [QueryBuilder.annotations, isinstance_of_Rule] at hm

theorem changes_failsFast (qb : QueryBuilder) : failsFastFrom qb qb.changes := by
  intro m hm
  simp [QueryBuilder.changes, isinstance_of_Rule] at hm

theorem logs_failsFast (qb : QueryBuilder) : failsFastFrom qb qb.logs := by
  intro m hm
  simp [QueryBuilder.logs, isinstance_of_Rule] at hm

theorem usage_failsFast (qb : QueryBuilder) : failsFastFrom qb qb.usage := by
  intro m hm
  simp [QueryBuilder.usage, isinstance_of_Rule] at hm

theorem monitor_failsFast (qb : QueryBuilder) (rule : Rule) :
    failsFastFrom qb (qb.monitor rule) := by
  intro m hm
  simp [QueryBuilder.monitor] at hm

theorem read_sensors_err_operation (qb : QueryBuilder) (S E : Value)
    (h1 : qb.object_type = "sensors") :
    ∀ m, (qb.read S E).result = Except.error (PyError.valueError m) →
      (qb.read S E).state.operation = Option.some ⟨"read", OpArgs.readArgs S E⟩ := by
  intro m hm
  rcases hn : normalizeSteps S E qb.pipeline with ⟨p2, err⟩
  cases err with
  | none =>
    simp [QueryBuilder.read, h1, QueryBuilder.normalize_pipeline_functions, hn] at hm
  | some e =>
    simp [QueryBuilder.read, h1, QueryBuilder.normalize_pipeline_functions, hn]

/-- C2 counterexample: a sensors read whose rollup step makes
normalization fail leaves `operation` set to the read operation, not
`None` — the claim's "operation field is still None afterwards" is false
at `rollupBuilder.read(start=None, end=None)`. -/
theorem validation_fail_mutates_operation :
    (rollupBuilder.read Value.none Value.none).result =
      Except.error (PyError.valueError ROLLUPMSG) ∧
    (rollupBuilder.read Value.none Value.none).state.operation =
      Option.some ⟨"read", OpArgs.readArgs Value.none Value.none⟩ ∧
    (rollupBuilder.read Value.none Value.none).state.operation ≠ Option.none :=
  ⟨rfl, rfl, fun h => Option.noConfusion h⟩

/-- C2 amended: whenever a terminal call raises a ValidationError-class
error, no transport-collaborator operation has been invoked and the
selection buckets are exactly what they were before; however, a sensors
read that fails during pipeline normalization has already set the
operation field to the read operation (so the operation is not still
`None` there), and steps before the failing one may have been
back-filled. -/
theorem validation_error_fail_fast_amended (qb : QueryBuilder) (S E ts : Value)
    (f : String) (inc : Bool) (rule : Rule) :
    failsFastFrom qb (qb.read S E) ∧
    failsFastFrom qb (qb.delete S E) ∧
    failsFastFrom qb (qb.single f ts inc) ∧
    failsFastFrom qb (qb.latest inc) ∧
    failsFastFrom qb qb.annotations ∧
    failsFastFrom qb qb.changes ∧
    failsFastFrom qb qb.logs ∧
    failsFastFrom qb qb.usage ∧
    failsFastFrom qb (qb.monitor rule) ∧
    (qb.object_type = "sensors" →
      ∀ m, (qb.read S E).result = Except.error (PyError.valueError m) →
        (qb.read S E).state.operation = Option.some ⟨"read", OpArgs.readArgs S E⟩) :=
  ⟨read_failsFast qb S E, delete_failsFast qb S E, single_failsFast qb f ts inc,
    latest_failsFast qb inc, annotations_failsFast qb, changes_failsFast qb,
    logs_failsFast qb, usage_failsFast qb, monitor_failsFast qb rule,
    fun h1 => read_sensors_err_operation qb S E h1⟩

/-- Witness for C2 (amended): at the failing sensors read
`rollupBuilder.read(None, None)`, no collaborator call was made, the
selection buckets are untouched, and the operation field carries the read
operation. -/
theorem validation_error_fail_fast_amended_witness :
    (rollupBuilder.read Value.none Value.none).calls = [] ∧
    (rollupBuilder.read Value.none Value.none).state.selection = rollupBuilder.selection ∧
    (rollupBuilder.read Value.none Value.none).state.operation =
      Option.some ⟨"read", OpArgs.readArgs Value.none Value.none⟩ := by
  have h := validation_error_fail_fast_amended rollupBuilder Value.none Value.none
    Value.none "latest" false ⟨Value.none, Option.none⟩
  have h1 := h.1 ROLLUPMSG rfl
  have h2 := h.2.2.2.2.2.2.2.2.2 rfl ROLLUPMSG rfl
  exact ⟨h1.1, h1.2, h2⟩

/-- C3 (code bug): builder.py guards annotations / changes / logs / usage
with `isinstance(self.object_type, Rule)`, but `self.object_type` is the
string set in `__init__` (line 36) and a string is never an instance of
the `Rule` class, so all four calls raise a TypeError-class error even on
a rules builder whose selection holds a single rule key, and never reach
the monitoring collaborator. -/
theorem monitoring_reads_always_raise_type_error :
    rulesBuilder.object_type = "rules" ∧
    extract_key_for_monitoring rulesBuilder.selection.rules =
      Except.ok (Value.str "rule1") ∧
    rulesBuilder.annotations.result =
      Except.error (PyError.typeError "Annotations only applies to monitoring rules") ∧
    rulesBuilder.annotations.calls = [] ∧
    rulesBuilder.changes.result =
      Except.error (PyError.typeError "Changes only applies to monitoring rules") ∧
    rulesBuilder.changes.calls = [] ∧
    rulesBuilder.logs.result =
      Except.error (PyError.typeError "Logs only applies to monitoring rules") ∧
    rulesBuilder.logs.calls = [] ∧
    rulesBuilder.usage.result =
      Except.error (PyError.typeError "Usage only applies to monitoring rules") ∧
    rulesBuilder.usage.calls = [] :=
  ⟨rfl, rfl, rfl, rfl, rfl, rfl, rfl, rfl, rfl, rfl⟩

/-- C4 (code bug): `interpolate("linear", "1day", start=time 3,
end=time 4)` appends `Interpolation("linear", "1day")` — the method's own
start / end parameters are dropped (builder.py line 155), so the step
carries `None, None` instead of the given bounds.  The normalization half
of the claim holds: a later sensors read back-fills the step's missing
bounds from the terminal call's bounds and does not fail even when those
are themselves `None`. -/
theorem interpolate_drops_start_end :
    (sensorsBuilder.interpolate "linear" "1day" (Value.time 3) (Value.time 4)).pipeline =
      [PipelineStep.interpolation "linear" "1day" Value.none Value.none] ∧
    ((sensorsBuilder.interpolate "linear" "1day" (Value.time 3) (Value.time 4)).read
        Value.none Value.none).calls.length = 1 ∧
    ((sensorsBuilder.interpolate "linear" "1day" (Value.time 3) (Value.time 4)).read
        Value.none Value.none).state.pipeline =
      [PipelineStep.interpolation "linear" "1day" Value.none Value.none] ∧
    ((sensorsBuilder.interpolate "linear" "1day" (Value.time 3) (Value.time 4)).read
        (Value.time 5) (Value.time 7)).state.pipeline =
      [PipelineStep.interpolation "linear" "1day" (Value.time 5) (Value.time 7)] :=
  ⟨rfl, rfl, rfl, rfl⟩

/-! ### Datapoint-delete validation (claim C5) -/

theorem validate_datapoint_delete_bad (qb : QueryBuilder)
    (h : badDeleteSelection qb.selection.devices = true ∨
         badDeleteSelection qb.selection.sensors = true) :
    qb.validate_datapoint_delete = Except.error (PyError.valueError DELETEKEYMSG) := by
  unfold QueryBuilder.validate_datapoint_delete
  rcases hd : qb.selection.devices.selection with _ | d
  · rcases hs : qb.selection.sensors.selection with _ | s
    · simp [hd, hs]
    · by_cases hcs : isCompoundOrDict s = true <;> simp [hd, hs, hcs]
  · rcases hs : qb.selection.sensors.selection with _ | s
    · by_cases hcd : isCompoundOrDict d = true <;> simp [hd, hs, hcd]
    · simp [badDeleteSelection, hd, hs] at h
      by_cases hcd : isCompoundOrDict d = true
      · simp [hd, hs, hcd]
      · have hcs : isCompoundOrDict s = true := by
          rcases h with h | h
          · exact absurd h hcd
          · exact h
        simp [hd, hs, hcd, hcs]

theorem validate_datapoint_delete_scalar (qb : QueryBuilder) (t1 a1 : String)
    (dv : Value) (t2 a2 : String) (sv : Value)
    (hdev : qb.selection.devices.selection =
      Option.some (SelectionExpr.scalar t1 a1 dv))
    (hsen : qb.selection.sensors.selection =
      Option.some (SelectionExpr.scalar t2 a2 sv)) :
    qb.validate_datapoint_delete = Except.ok (dv, sv) := by
  simp [QueryBuilder.validate_datapoint_delete, hdev, hsen, isCompoundOrDict, getValue,
    Except.bind, Bind.bind]

/-- C5: on a sensors builder, `delete(start=S, end=E)` fails with a
ValidationError-class error when S or E is `None`, and when the devices
or sensors bucket is absent or holds a compound / dict expression;
when both buckets hold single scalar selectors and both bounds are
present it records operation delete(start=S, stop=E, device_key,
sensor_key) and delegates to `delete_from_sensors(device_key, sensor_key,
S, E)`. -/
theorem delete_sensors_datapoint_delete (qb : QueryBuilder) (S E : Value)
    (hot : qb.object_type = "sensors") :
    ((S = Value.none ∨ E = Value.none) →
      qb.delete S E = ⟨qb, [], [], Except.error (PyError.valueError DELETEMSG)⟩) ∧
    (S ≠ Value.none → E ≠ Value.none →
      ((badDeleteSelection qb.selection.devices = true ∨
        badDeleteSelection qb.selection.sensors = true) →
        qb.delete S E = ⟨qb, [], [], Except.error (PyError.valueError DELETEKEYMSG)⟩) ∧
      (∀ (t1 a1 : String) (dv : Value) (t2 a2 : String) (sv : Value),
        qb.selection.devices.selection =
          Option.some (SelectionExpr.scalar t1 a1 dv) →
        qb.selection.sensors.selection =
          Option.some (SelectionExpr.scalar t2 a2 sv) →
        (qb.delete S E).state.operation =
          Option.some ⟨"delete", OpArgs.deleteArgs S E dv sv⟩ ∧
        (qb.delete S E).calls = [TransportCall.delete_from_sensors dv sv S E] ∧
        (qb.delete S E).result = Except.ok (TerminalResult.clientResult
          (TransportCall.delete_from_sensors dv sv S E)))) := by
  have hd : ¬ qb.object_type = "devices" := by rw [hot]; decide
  constructor
  · intro hb
    simp [QueryBuilder.delete, hd, hot, hb]
  · intro hS hE
    have hb : ¬ (S = Value.none ∨ E = Value.none) := by simp [hS, hE]
    constructor
    · intro hbad
      have hv := validate_datapoint_delete_bad qb hbad
      simp [QueryBuilder.delete, hd, hot, hb, hv]
    · intro t1 a1 dv t2 a2 sv hdev hsen
      have hv := validate_datapoint_delete_scalar qb t1 a1 dv t2 a2 sv hdev hsen
      simp [QueryBuilder.delete, hd, hot, hb, hv]

/-- Witness for C5: on `deleteBuilder` (scalar device key "d1", scalar
sensor key "s1"), delete with bounds time 1 / time 2 records the delete
operation and issues the one datapoint-delete call. -/
theorem delete_sensors_datapoint_delete_witness :
    deleteBuilder.object_type = "sensors" ∧
    (deleteBuilder.delete (Value.time 1) (Value.time 2)).state.operation =
      Option.some ⟨"delete", OpArgs.deleteArgs (Value.time 1) (Value.time 2)
        (Value.str "d1") (Value.str "s1")⟩ ∧
    (deleteBuilder.delete (Value.time 1) (Value.time 2)).calls =
      [TransportCall.delete_from_sensors (Value.str "d1") (Value.str "s1")
        (Value.time 1) (Value.time 2)] := by
  have h := (delete_sensors_datapoint_delete deleteBuilder (Value.time 1)
    (Value.time 2) rfl).2 (by decide) (by decide)
  have h2 := h.2 "devices" "key" (Value.str "d1") "sensors" "key" (Value.str "s1") rfl rfl
  exact ⟨rfl, h2.1, h2.2.1⟩

/-- C6: `extract_key_for_monitoring` fails with a ValidationError-class
error when the root combination carries more than one selector, returns
the single selector's value when it carries exactly one, and returns the
root's value directly when the root is itself a scalar selector. -/
theorem extract_key_single_rule (sels : List SelectionExpr) (t a : String) (v : Value) :
    (sels.length > 1 →
      extract_key_for_monitoring ⟨Option.some (SelectionExpr.andClause sels)⟩ =
        Except.error (PyError.valueError MONITORKEYMSG) ∧
      extract_key_for_monitoring ⟨Option.some (SelectionExpr.orClause sels)⟩ =
        Except.error (PyError.valueError MONITORKEYMSG)) ∧
    (extract_key_for_monitoring ⟨Option.some (SelectionExpr.andClause
        [SelectionExpr.scalar t a v])⟩ = Except.ok v ∧
      extract_key_for_monitoring ⟨Option.some (SelectionExpr.orClause
        [SelectionExpr.scalar t a v])⟩ = Except.ok v) ∧
    extract_key_for_monitoring ⟨Option.some (SelectionExpr.scalar t a v)⟩ =
      Except.ok v := by
  refine ⟨fun hlen => ⟨?_, ?_⟩, ⟨rfl, rfl⟩, rfl⟩ <;>
    simp [extract_key_for_monitoring, hasSelectors, getSelectors, hlen]

/-- Witness for C6: two scalar selectors fail, one succeeds. -/
theorem extract_key_single_rule_witness :
    extract_key_for_monitoring ⟨Option.some (SelectionExpr.andClause
      [SelectionExpr.scalar "rules" "key" (Value.str "r1"),
       SelectionExpr.scalar "rules" "key" (Value.str "r2")])⟩ =
      Except.error (PyError.valueError MONITORKEYMSG) ∧
    extract_key_for_monitoring ⟨Option.some (SelectionExpr.andClause
      [SelectionExpr.scalar "rules" "key" (Value.str "r1")])⟩ =
      Except.ok (Value.str "r1") := by
  have h := extract_key_single_rule
    [SelectionExpr.scalar "rules" "key" (Value.str "r1"),
     SelectionExpr.scalar "rules" "key" (Value.str "r2")] "rules" "key" (Value.str "r1")
  exact ⟨(h.1 (by decide)).1, h.2.1.1⟩

/-- C7 counterexample: status code 207 lies in [200,300) but is
classified as the partially-successful outcome (code 2), not success —
so "every status code in [200,300) is classified as success", taken
universally, is false at 207 (as the tests pin: test_response.py lines
27-36). -/
theorem response_207_not_success :
    ((200:Int) ≤ 207 ∧ (207:Int) < 300) ∧
    (Response.ofRaw ⟨207, "Forbidden", "foo"⟩).successful = 2 ∧
    (Response.ofRaw ⟨207, "Forbidden", "foo"⟩).successful ≠ 0 :=
  ⟨⟨by decide, by decide⟩, rfl, by decide⟩

/-- C7 amended: constructing a Response classifies status code 207 as
the partially-successful outcome (code 2) with the body text as error
message; every other status code in [200,300) as success (code 0) with no
error message; and every status code ≥ 300 as failure (code 1) with the
body text as error message.  Status code and reason are stored verbatim
and the status_code alias equals the primary status accessor. -/
theorem response_classification_amended (r : RawResult) :
    (Response.ofRaw r).status = r.status_code ∧
    (Response.ofRaw r).reason = r.reason ∧
    (Response.ofRaw r).status_code = (Response.ofRaw r).status ∧
    (r.status_code = 207 →
      (Response.ofRaw r).successful = 2 ∧
      (Response.ofRaw r).error = Option.some r.text) ∧
    (200 ≤ r.status_code → r.status_code < 300 → r.status_code ≠ 207 →
      (Response.ofRaw r).successful = 0 ∧ (Response.ofRaw r).error = Option.none) ∧
    (300 ≤ r.status_code →
      (Response.ofRaw r).successful = 1 ∧
      (Response.ofRaw r).error = Option.some r.text) := by
  unfold Response.ofRaw Response.status_code
  by_cases h1 : r.status_code = 207
  · simp [h1]
  · by_cases h2 : 200 ≤ r.status_code ∧ r.status_code < 300
    · obtain ⟨h2a, h2b⟩ := h2
      simp [h1, h2a, h2b]
    · simp [h1, h2]
      intro ha
      omega

/-- Witness for C7 (amended), at the test table's rows 403 and 200. -/
theorem response_classification_amended_witness :
    ((Response.ofRaw ⟨403, "Forbidden", "foo"⟩).successful = 1 ∧
      (Response.ofRaw ⟨403, "Forbidden", "foo"⟩).error = Option.some "foo") ∧
    ((Response.ofRaw ⟨200, "OK", ""⟩).successful = 0 ∧
      (Response.ofRaw ⟨200, "OK", ""⟩).error = Option.none) := by
  have h1 := response_classification_amended ⟨403, "Forbidden", "foo"⟩
  have h2 := response_classification_amended ⟨200, "OK", ""⟩
  exact ⟨h1.2.2.2.2.2 (by decide), h2.2.2.2.2.1 (by decide) (by decide) (by decide)⟩

/-! ### WriteResponse lemmas (claim C8) -/

theorem mem_failures_iff (w : WriteResponse) (k : String) (m : Option String) :
    (k, m) ∈ w.failures ↔
      ∃ ent : WriteEntry, (k, ent) ∈ w.body ∧ ent.success = false ∧ m = ent.message := by
  constructor
  · intro h
    obtain ⟨⟨k2, ent⟩, hmem, heq⟩ := List.mem_map.mp h
    obtain ⟨hbody, hfail⟩ := List.mem_filter.mp hmem
    obtain ⟨hk, hm⟩ := Prod.mk.injEq _ _ _ _ |>.mp heq
    subst hk
    exact ⟨ent, hbody, by simpa using hfail, hm.symm⟩
  · rintro ⟨ent, hbody, hfail, hm⟩
    refine List.mem_map.mpr ⟨(k, ent), List.mem_filter.mpr ⟨hbody, ?_⟩, ?_⟩
    · simpa using hfail
    · simp [hm]

theorem mem_state_view_iff (body : List (String × WriteEntry)) (st k : String) :
    (k ∈ ((body.filter (fun e => e.2.success)).filter
        (fun e => e.2.device_state == st)).map (fun e => e.1)) ↔
      ∃ ent : WriteEntry, (k, ent) ∈ body ∧ ent.success = true ∧
        ent.device_state = st := by
  constructor
  · intro h
    obtain ⟨⟨k2, ent⟩, hmem, heq⟩ := List.mem_map.mp h
    obtain ⟨hmem1, hst⟩ := List.mem_filter.mp hmem
    obtain ⟨hbody, hsucc⟩ := List.mem_filter.mp hmem1
    subst heq
    exact ⟨ent, hbody, hsucc, by simpa using hst⟩
  · rintro ⟨ent, hbody, hsucc, hst⟩
    exact List.mem_map.mpr ⟨(k, ent), List.mem_filter.mpr
      ⟨List.mem_filter.mpr ⟨hbody, hsucc⟩, by simpa using hst⟩, rfl⟩

theorem writeSuccessful_characterization (r : RawResult) (b : String × WriteEntry)
    (t : List (String × WriteEntry)) :
    ((WriteResponse.ofRaw r (b :: t)).successful = 0 ↔
      ∀ e ∈ b :: t, e.2.success = true) ∧
    ((WriteResponse.ofRaw r (b :: t)).successful = 1 ↔
      ∀ e ∈ b :: t, e.2.success = false) ∧
    ((WriteResponse.ofRaw r (b :: t)).successful = 2 ↔
      ((∃ e ∈ b :: t, e.2.success = true) ∧ (∃ e ∈ b :: t, e.2.success = false))) := by
  by_cases hs : (b :: t).all (fun e => e.2.success) = true
  · have hall : ∀ e ∈ b :: t, e.2.success = true := List.all_eq_true.mp hs
    have h0 : (WriteResponse.ofRaw r (b :: t)).successful = 0 := by
      simp [WriteResponse.ofRaw, hs]
    have hbtrue : b.2.success = true := hall b (List.mem_cons_self b t)
    refine ⟨?_, ?_, ?_⟩
    · rw [h0]
      exact ⟨fun _ => hall, fun _ => rfl⟩
    · rw [h0]
      refine ⟨fun h01 => absurd h01 (by decide), fun hfalse => ?_⟩
      exact absurd hbtrue (by simp [hfalse b (List.mem_cons_self b t)])
    · rw [h0]
      refine ⟨fun h02 => absurd h02 (by decide), ?_⟩
      rintro ⟨_, e, hmem, hfe⟩
      exact absurd (hall e hmem) (by simp [hfe])
  · by_cases hf : (b :: t).all (fun e => ! e.2.success) = true
    · have hallf : ∀ e ∈ b :: t, e.2.success = false := by
        intro e he
        simpa using List.all_eq_true.mp hf e he
      have h1 : (WriteResponse.ofRaw r (b :: t)).successful = 1 := by
        simp [WriteResponse.ofRaw, hs, hf]
      have hbfalse : b.2.success = false := hallf b (List.mem_cons_self b t)
      refine ⟨?_, ?_, ?_⟩
      · rw [h1]
        refine ⟨fun h10 => absurd h10 (by decide), fun htrue => ?_⟩
        exact absurd hbfalse (by simp [htrue b (List.mem_cons_self b t)])
      · rw [h1]
        exact ⟨fun _ => hallf, fun _ => rfl⟩
      · rw [h1]
        refine ⟨fun h12 => absurd h12 (by decide), ?_⟩
        rintro ⟨⟨e, hmem, hte⟩, _⟩
        exact absurd (hallf e hmem) (by simp [hte])
    · have h2 : (WriteResponse.ofRaw r (b :: t)).successful = 2 := by
        simp [WriteResponse.ofRaw, hs, hf]
      have hexT : ∃ e ∈ b :: t, e.2.success = true := by
        by_contra hc
        push_neg at hc
        exact hf (List.all_eq_true.mpr (fun e he => by simp [hc e he]))
      have hexF : ∃ e ∈ b :: t, e.2.success = false := by
        by_contra hc
        push_neg at hc
        refine hs (List.all_eq_true.mpr (fun e he => ?_))
        cases hsb : e.2.success with
        | true => rfl
        | false => exact absurd hsb (hc e he)
      refine ⟨?_, ?_, ?_⟩
      · rw [h2]
        refine ⟨fun h20 => absurd h20 (by decide), fun hall2 => ?_⟩
        obtain ⟨e, he, hef⟩ := hexF
        exact absurd (hall2 e he) (by simp [hef])
      · rw [h2]
        refine ⟨fun h21 => absurd h21 (by decide), fun hall2 => ?_⟩
        obtain ⟨e, he, het⟩ := hexT
        exact absurd (hall2 e he) (by simp [het])
      · rw [h2]
        exact ⟨fun _ => ⟨hexT, hexF⟩, fun _ => rfl⟩

/-- C8: for a WriteResponse over a non-empty decoded body, the outcome is
independent of the HTTP status code and is success (0) iff every entry
succeeded, failure (1) iff every entry failed, and the partially
successful state (2) otherwise; the failures view holds exactly the
(key, message) pairs of failed entries and the created / existing /
modified views exactly the keys of successful entries with the matching
device_state. -/
theorem write_response_classification (r1 r2 : RawResult)
    (body : List (String × WriteEntry)) (hne : body ≠ []) :
    (WriteResponse.ofRaw r1 body).successful =
      (WriteResponse.ofRaw r2 body).successful ∧
    ((WriteResponse.ofRaw r1 body).successful = 0 ↔
      ∀ e ∈ body, e.2.success = true) ∧
    ((WriteResponse.ofRaw r1 body).successful = 1 ↔
      ∀ e ∈ body, e.2.success = false) ∧
    ((WriteResponse.ofRaw r1 body).successful = 2 ↔
      ((∃ e ∈ body, e.2.success = true) ∧ (∃ e ∈ body, e.2.success = false))) ∧
    (∀ (k : String) (m : Option String),
      (k, m) ∈ (WriteResponse.ofRaw r1 body).failures ↔
      ∃ ent : WriteEntry, (k, ent) ∈ body ∧ ent.success = false ∧ m = ent.message) ∧
    (∀ k : String, k ∈ (WriteResponse.ofRaw r1 body).created ↔
      ∃ ent : WriteEntry, (k, ent) ∈ body ∧ ent.success = true ∧
        ent.device_state = "created") ∧
    (∀ k : String, k ∈ (WriteResponse.ofRaw r1 body).existing ↔
      ∃ ent : WriteEntry, (k, ent) ∈ body ∧ ent.success = true ∧
        ent.device_state = "existing") ∧
    (∀ k : String, k ∈ (WriteResponse.ofRaw r1 body).modified ↔
      ∃ ent : WriteEntry, (k, ent) ∈ body ∧ ent.success = true ∧
        ent.device_state = "modified") := by
  obtain ⟨b, t, rfl⟩ : ∃ b t2, body = b :: t2 := by
    cases body with
    | nil => exact absurd rfl hne
    | cons b t => exact ⟨b, t, rfl⟩
  obtain ⟨hc0, hc1, hc2⟩ := writeSuccessful_characterization r1 b t
  exact ⟨rfl, hc0, hc1, hc2, fun k m => mem_failures_iff _ k m,
    fun k => mem_state_view_iff _ "created" k,
    fun k => mem_state_view_iff _ "existing" k,
    fun k => mem_state_view_iff _ "modified" k⟩

/-- Witness for C8, at the test suite's partial-success body
(test_response.py lines 66-77, 97-114): outcome 2 and failures view
[("key2", "bad things happened")]. -/
theorem write_response_classification_witness :
    (WriteResponse.ofRaw ⟨200, "OK", ""⟩
      [("key1", ⟨"existing", Option.none, true⟩),
       ("key2", ⟨"created", Option.some "bad things happened", false⟩)]).successful = 2 ∧
    ("key2", Option.some "bad things happened") ∈
      (WriteResponse.ofRaw ⟨200, "OK", ""⟩
        [("key1", ⟨"existing", Option.none, true⟩),
         ("key2", ⟨"created", Option.some "bad things happened", false⟩)]).failures := by
  have h := write_response_classification ⟨200, "OK", ""⟩ ⟨403, "Forbidden", "foo"⟩
    [("key1", ⟨"existing", Option.none, true⟩),
     ("key2", ⟨"created", Option.some "bad things happened", false⟩)] (by simp)
  refine ⟨h.2.2.2.1.mpr ⟨⟨("key1", ⟨"existing", Option.none, true⟩), by simp, rfl⟩,
    ⟨("key2", ⟨"created", Option.some "bad things happened", false⟩), by simp, rfl⟩⟩, ?_⟩
  exact (h.2.2.2.2.1 "key2" (Option.some "bad things happened")).mpr
    ⟨⟨"created", Option.some "bad things happened", false⟩, by simp, rfl, rfl⟩

/-- C9 counterexample: `delete(start=0)` on a devices builder — the start
value 0 is non-None but falsy, so the guard `if start or end:` (builder.py
line 111) does not fire: instead of raising before any transport call, the
call records find(all) and invokes delete_device. -/
theorem delete_devices_accepts_falsy_start :
    (Value.int 0 ≠ Value.none) ∧
    (devicesBuilder.delete (Value.int 0) Value.none).result =
      Except.ok (TerminalResult.clientResult (TransportCall.delete_device
        (devicesBuilder.delete (Value.int 0) Value.none).state)) ∧
    (devicesBuilder.delete (Value.int 0) Value.none).calls =
      [TransportCall.delete_device
        (devicesBuilder.delete (Value.int 0) Value.none).state] :=
  ⟨by decide, rfl, rfl⟩

/-- C9 amended: on a devices builder, `delete` fails with a
ValidationError-class error before any transport call iff the passed
start or end is truthy (Python truthiness: non-None and non-zero /
non-empty / non-False; datetimes are always truthy); with no truthy
bound it records operation find(all) and delegates to delete_device. -/
theorem delete_devices_truthiness_amended (qb : QueryBuilder) (S E : Value)
    (hot : qb.object_type = "devices") :
    ((truthy S = true ∨ truthy E = true) →
      qb.delete S E = ⟨qb, [], [], Except.error (PyError.valueError DELETEDEVICEMSG)⟩) ∧
    (truthy S = false → truthy E = false →
      (qb.delete S E).state.operation = Option.some ⟨"find", OpArgs.findArgs "all"⟩ ∧
      (qb.delete S E).calls =
        [TransportCall.delete_device (qb.delete S E).state] ∧
      (qb.delete S E).result = Except.ok (TerminalResult.clientResult
        (TransportCall.delete_device (qb.delete S E).state))) := by
  constructor
  · intro ht
    have hcond : (truthy S || truthy E) = true := by
      rcases ht with h | h <;> simp [h]
    simp [QueryBuilder.delete, hot, hcond]
  · intro hS hE
    have hcond : (truthy S || truthy E) = false := by simp [hS, hE]
    simp [QueryBuilder.delete, hot, hcond]

/-- Witness for C9 (amended): a truthy start (a datetime) is rejected,
and a call with neither bound issues the device deletion. -/
theorem delete_devices_truthiness_amended_witness :
    devicesBuilder.delete (Value.time 1) Value.none =
      ⟨devicesBuilder, [], [], Except.error (PyError.valueError DELETEDEVICEMSG)⟩ ∧
    (devicesBuilder.delete Value.none Value.none).calls =
      [TransportCall.delete_device (devicesBuilder.delete Value.none Value.none).state] := by
  have h1 := (delete_devices_truthiness_amended devicesBuilder (Value.time 1)
    Value.none rfl).1 (Or.inl rfl)
  have h2 := (delete_devices_truthiness_amended devicesBuilder Value.none
    Value.none rfl).2 rfl rfl
  exact ⟨h1, h2.2.1⟩

/-- C10 (code bug): `latest(include_selection=i)` warns and forwards to
`single("latest", include_selection=i)`, performing the same state
updates and the same delegated transport call — but the forwarding call
lacks a `return` (builder.py line 247), so `latest` returns None while
`single` returns the delegated call's result: at a sensors builder the
two return values differ. -/
theorem latest_returns_none_unlike_single (qb : QueryBuilder) (inc : Bool) :
    (qb.latest inc).state = (qb.single "latest" Value.none inc).state ∧
    (qb.latest inc).calls = (qb.single "latest" Value.none inc).calls ∧
    (qb.latest inc).warns = LATESTMSG :: (qb.single "latest" Value.none inc).warns ∧
    (qb.latest inc).result =
      (qb.single "latest" Value.none inc).result.map (fun _ => TerminalResult.pyNone) ∧
    (sensorsBuilder.single "latest" Value.none false).result =
      Except.ok (TerminalResult.clientResult (TransportCall.single
        (sensorsBuilder.single "latest" Value.none false).state)) ∧
    (sensorsBuilder.latest false).result = Except.ok TerminalResult.pyNone ∧
    (sensorsBuilder.latest false).result ≠
      (sensorsBuilder.single "latest" Value.none false).result := by
  refine ⟨rfl, rfl, rfl, rfl, rfl, rfl, fun h => ?_⟩
  rw [show (sensorsBuilder.latest false).result = Except.ok TerminalResult.pyNone
    from rfl] at h
  rw [show (sensorsBuilder.single "latest" Value.none false).result =
    Except.ok (TerminalResult.clientResult (TransportCall.single
      (sensorsBuilder.single "latest" Value.none false).state)) from rfl] at h
  exact TerminalResult.noConfusion (Except.ok.inj h)

end TempoIQ
